import Mathlib

/-!
Verification of the YouTube RAG / summarizer pipeline notebooks.

The repository consists of notebooks implementing a summarizer chain
(`Youtube Summarizer/01_PoC.ipynb`), a RAG question-answering system
(`Youtube RAG/01_PoC.ipynb`), an evaluation harness
(`Youtube RAG/04_MLFlow_evaluation.ipynb`, plus the MLflow model-evaluation
notebook), and a performance-monitoring notebook.  External calls
(transcript fetch, LLM generation, metric libraries) are modelled as
function parameters; Python exceptions are modelled with `Except`.
-/

namespace YtRag

/-- Python exceptions that the URL-extraction and pipeline code can raise. -/
inductive PyErr where
  | keyError : PyErr
  | valueError : PyErr
deriving DecidableEq, Repr

/-- The fields of Python `urllib.parse.urlparse` that the notebooks read:
`hostname` (None when no netloc), `path` and `query`. -/
structure ParsedUrl where
  hostname : Option String
  path : String
  query : String
deriving DecidableEq, Repr

/-- Characters following the first occurrence of the netloc separator
`://`, or `none` when the string has no netloc part. -/
def afterSchemeSep : List Char → Option (List Char)
  | [] => none
  | ':' :: '/' :: '/' :: rest => some rest
  | _ :: rest => afterSchemeSep rest

/-- Split a character list at the first occurrence of `c`: the part before
it, and (when `c` occurs) the part after it. -/
def breakAtChar (c : Char) : List Char → List Char × Option (List Char)
  | [] => ([], none)
  | x :: xs =>
    if x = c then ([], some xs)
    else
      let r := breakAtChar c xs
      (x :: r.1, r.2)

/-- Split a character list on every occurrence of `c` (Python
`str.split(c)` on a non-empty string pattern). -/
def splitAtAll (c : Char) : List Char → List (List Char)
  | [] => [[]]
  | x :: xs =>
    let r := splitAtAll c xs
    if x = c then [] :: r
    else
      match r with
      | [] => [[x]]
      | h :: t => (x :: h) :: t

/-- Embedding of `urllib.parse.urlparse` restricted to the shapes the
notebooks feed it: `scheme://netloc/path?query` (no userinfo, port or
fragment).  `hostname` is the lower-cased netloc, `None` when absent.  The
netloc ends at the first `/` or `?`; the query is everything after the
first `?`. -/
def urlparse (url : String) : ParsedUrl :=
  match afterSchemeSep url.data with
  | none => { hostname := none, path := url, query := "" }
  | some rest =>
    let pq := breakAtChar '?' rest
    let np := breakAtChar '/' pq.1
    let path : List Char := match np.2 with | none => [] | some p => '/' :: p
    let query : List Char := match pq.2 with | none => [] | some q => q
    { hostname := if np.1 = [] then none else some (String.mk (np.1.map Char.toLower)),
      path := String.mk path,
      query := String.mk query }

/-- Embedding of `urllib.parse.parse_qs(query)[k]` restricted to a single
key: the list of non-blank values bound to `k`.  `parse_qs` splits the query
on `&`, splits each field at the first `=`, and drops fields with no `=` or
a blank value (its default `keep_blank_values=False`).  A subscript on a key
with no values raises `KeyError`, which callers below surface when this list
is empty. -/
def parseQsKey (query : String) (k : String) : List String :=
  (splitAtAll '&' query.data).filterMap fun field =>
    match breakAtChar '=' field with
    | (_, none) => none
    | (name, some v) =>
      if String.mk name = k ∧ v ≠ [] then some (String.mk v) else none

/-- Embedding of `extract_video_id` from `Youtube RAG/01_PoC.ipynb`:
returns the id for `youtu.be` links and `/watch?v=` links, raises
`ValueError` on other URLs, and raises `KeyError` (from the unguarded
`parse_qs(parsed_url.query)['v']`) on a `/watch` URL with no `v` value. -/
def extractVideoIdRag (url : String) : Except PyErr String :=
  let p := urlparse url
  if p.hostname = some "youtu.be" then
    Except.ok (String.mk (p.path.data.drop 1))
  else if p.hostname = some "www.youtube.com" ∨ p.hostname = some "youtube.com" then
    if p.path = "/watch" then
      match parseQsKey p.query "v" with
      | [] => Except.error PyErr.keyError
      | v :: _ => Except.ok v
    else
      Except.error PyErr.valueError
  else
    Except.error PyErr.valueError

/-- Embedding of `extract_video_id` from `Youtube Summarizer/01_PoC.ipynb`
(and `YouTubeSummaryChain.extract_video_id`): identical to the RAG version
except that a rejected URL yields `None` instead of raising `ValueError`.
The unguarded `parse_qs(parsed_url.query)['v']` can still raise `KeyError`. -/
def extractVideoIdSumm (url : String) : Except PyErr (Option String) :=
  let p := urlparse url
  if p.hostname = some "youtu.be" then
    Except.ok (some (String.mk (p.path.data.drop 1)))
  else if p.hostname = some "www.youtube.com" ∨ p.hostname = some "youtube.com" then
    if p.path = "/watch" then
      match parseQsKey p.query "v" with
      | [] => Except.error PyErr.keyError
      | v :: _ => Except.ok (some v)
    else
      Except.ok none
  else
    Except.ok none

end YtRag

namespace YtRag

instance {ε α : Type} [DecidableEq ε] [DecidableEq α] : DecidableEq (Except ε α) := fun a b =>
  match a, b with
  | Except.ok x, Except.ok y =>
    if h : x = y then isTrue (by rw [h]) else isFalse (by simp [h])
  | Except.error x, Except.error y =>
    if h : x = y then isTrue (by rw [h]) else isFalse (by simp [h])
  | Except.ok _, Except.error _ => isFalse (by simp)
  | Except.error _, Except.ok _ => isFalse (by simp)

example : extractVideoIdRag "https://www.youtube.com/watch?v=abc" = Except.ok "abc" := by decide
example : extractVideoIdRag "https://youtu.be/xyz" = Except.ok "xyz" := by decide
example : extractVideoIdRag "https://www.youtube.com/watch" = Except.error PyErr.keyError := by decide
example : extractVideoIdSumm "https://example.com/watch?v=abc" = Except.ok none := by decide

/-- C8: on the URL `https://www.youtube.com/watch` (a `/watch` path with no
`v` query parameter) both copies of `extract_video_id` reach the unguarded
lookup `parse_qs(parsed_url.query)['v']`, which has no value there: the
embedding yields the `KeyError` outcome, not `None` and not the function's
own `ValueError`. -/
theorem extract_video_id_watch_no_v_keyerror :
    extractVideoIdRag "https://www.youtube.com/watch" = Except.error PyErr.keyError ∧
    extractVideoIdSumm "https://www.youtube.com/watch" = Except.error PyErr.keyError := by
  constructor <;> decide

/-- C10: wherever the summarizer's `extract_video_id` returns a non-`None`
id, the RAG version returns the same id; the two differ exactly on rejected
URLs, where the summarizer returns `None` and the RAG version raises
`ValueError`; and both raise `KeyError` on the same URLs. -/
theorem extract_video_id_refinement (url : String) :
    (∀ v, extractVideoIdSumm url = Except.ok (some v) ↔ extractVideoIdRag url = Except.ok v) ∧
    (extractVideoIdSumm url = Except.ok none ↔ extractVideoIdRag url = Except.error PyErr.valueError) ∧
    (extractVideoIdSumm url = Except.error PyErr.keyError ↔
      extractVideoIdRag url = Except.error PyErr.keyError) := by
  by_cases h1 : (urlparse url).hostname = some "youtu.be"
  · simp [extractVideoIdSumm, extractVideoIdRag, h1]
  · by_cases h2 : (urlparse url).hostname = some "www.youtube.com" ∨
        (urlparse url).hostname = some "youtube.com"
    · by_cases h3 : (urlparse url).path = "/watch"
      · cases hq : parseQsKey (urlparse url).query "v" with
        | nil => simp [extractVideoIdSumm, extractVideoIdRag, h1, h2, h3, hq]
        | cons v vs => simp [extractVideoIdSumm, extractVideoIdRag, h1, h2, h3, hq]
      · simp [extractVideoIdSumm, extractVideoIdRag, h1, h2, h3]
    · simp [extractVideoIdSumm, extractVideoIdRag, h1, h2]

/-- The f-string prompt built by `summarize_text` in
`Youtube Summarizer/01_PoC.ipynb`, with the transcript interpolated. -/
def summaryPrompt (text : String) : String :=
  "Please provide a comprehensive summary of the following video transcript. \n    Focus on the main points, key insights, and important conclusions:\n\n    "
    ++ text ++
    "\n\n    Please structure the summary with:\n    1. Main Topic/Theme\n    2. Key Points\n    3. Important Details\n    4. Conclusions"

/-- Embedding of `summarize_text` from `Youtube Summarizer/01_PoC.ipynb`:
one call to the generation capability on the built prompt; an exception in
the API call is caught and surfaced as `None` (here `none`).  The model
name, temperature and token limit are fixed arguments of the external
client call and are absorbed into `gen`.  There is no retry loop. -/
def summarizeText (gen : String → Option String) (text : String) : Option String :=
  gen (summaryPrompt text)

/-- Embedding of `summarize_youtube_video`: extract the id (a raised
`KeyError` propagates), then each falsy intermediate result short-circuits
to a placeholder string.  `fetch` models `get_transcript`, which returns
`None` when the transcript API raises. -/
def summarizeYoutubeVideo (fetch gen : String → Option String) (url : String) :
    Except PyErr String :=
  match extractVideoIdSumm url with
  | Except.error e => Except.error e
  | Except.ok vid =>
    match vid with
    | none => Except.ok "Invalid YouTube URL"
    | some v =>
      if v = "" then Except.ok "Invalid YouTube URL"
      else
        match fetch v with
        | none => Except.ok "Could not retrieve transcript"
        | some t =>
          if t = "" then Except.ok "Could not retrieve transcript"
          else
            match summarizeText gen t with
            | none => Except.ok "Could not generate summary"
            | some s =>
              if s = "" then Except.ok "Could not generate summary"
              else Except.ok s

/-- Configuration of `YouTubeSummaryChain` from the MLflow summarizer
notebook: model name and temperature (the prompt template is a fixed
constant). -/
structure YouTubeSummaryChain where
  model_name : String := "mixtral-8x7b-32768"
  temperature : ℚ := 3/10
deriving DecidableEq

/-- The chain's `prompt_template.format(text=text)`: same text as the plain
prompt but with the template's leading newline and eight-space indentation. -/
def chainPrompt (text : String) : String :=
  "\n        Please provide a comprehensive summary of the following video transcript. \n        Focus on the main points, key insights, and important conclusions:\n\n        "
    ++ text ++
    "\n\n        Please structure the summary with:\n        1. Main Topic/Theme\n        2. Key Points\n        3. Important Details\n        4. Conclusions\n        "

/-- Embedding of `YouTubeSummaryChain.__call__`: the same pipeline as
`summarize_youtube_video`, with the chain's prompt template.  The chain's
`summarize_text` also makes a single generation call with no retry. -/
def YouTubeSummaryChain.call (_c : YouTubeSummaryChain) (fetch gen : String → Option String)
    (url : String) : Except PyErr String :=
  match extractVideoIdSumm url with
  | Except.error e => Except.error e
  | Except.ok vid =>
    match vid with
    | none => Except.ok "Invalid YouTube URL"
    | some v =>
      if v = "" then Except.ok "Invalid YouTube URL"
      else
        match fetch v with
        | none => Except.ok "Could not retrieve transcript"
        | some t =>
          if t = "" then Except.ok "Could not retrieve transcript"
          else
            match gen (chainPrompt t) with
            | none => Except.ok "Could not generate summary"
            | some s =>
              if s = "" then Except.ok "Could not generate summary"
              else Except.ok s

end YtRag

namespace YtRag

/-- A document record produced by `process_videos` in the RAG notebook. -/
structure VideoDoc where
  video_id : String
  url : String
  content : String
deriving DecidableEq, Repr

/-- Embedding of `get_transcript` from `Youtube RAG/01_PoC.ipynb`: any
exception from the transcript API is caught, logged, and replaced by the
empty string.  `fetch` models the external API (`none` = raised). -/
def getTranscriptRag (fetch : String → Option String) (vid : String) : String :=
  (fetch vid).getD ""

/-- Embedding of `process_videos` from `Youtube RAG/01_PoC.ipynb`: for each
URL, extract the id (a raised `ValueError`/`KeyError` propagates), fetch the
transcript, and append a record only when the transcript is non-empty
(`if transcript:`). -/
def processVideos (fetch : String → Option String) : List String → Except PyErr (List VideoDoc)
  | [] => Except.ok []
  | url :: rest =>
    match extractVideoIdRag url with
    | Except.error e => Except.error e
    | Except.ok vid =>
      let t := getTranscriptRag fetch vid
      match processVideos fetch rest with
      | Except.error e => Except.error e
      | Except.ok docs =>
        if t = "" then Except.ok docs
        else Except.ok ({ video_id := vid, url := url, content := t } :: docs)

/-- Modelled from the spec: the repository delegates chunking to
`RecursiveCharacterTextSplitter` from the langchain library, whose
implementation is not part of the source (the notebook only configures and
calls it).  §4.1 specifies chunking in word units with configuration
`max_chunk_size` and `overlap`, adjacent chunks sharing `overlap` units of
trailing/leading text.  `chunkAux` emits chunks of at most `maxSize` units,
each new chunk starting `stride = maxSize - overlap` units after the
previous one; `fuel` bounds the recursion and callers supply more fuel than
the list length. -/
def chunkAux (maxSize stride : Nat) : Nat → List α → List (List α)
  | 0, ws => [ws]
  | fuel + 1, ws =>
    if ws.length ≤ maxSize ∨ stride = 0 then [ws]
    else ws.take maxSize :: chunkAux maxSize stride fuel (ws.drop stride)

/-- Modelled from the spec: split a document, given as its list of word
units, into chunks of at most `maxSize` words, adjacent chunks sharing
`overlap` words. -/
def chunkDocument (maxSize overlap : Nat) (ws : List α) : List (List α) :=
  chunkAux maxSize (maxSize - overlap) (ws.length + 1) ws

/-- Concatenation of chunks with the overlap regions removed: the first
chunk in full, every later chunk with its leading `overlap` units dropped. -/
def reconstruct (overlap : Nat) : List (List α) → List α
  | [] => []
  | c :: cs => c ++ (cs.map (List.drop overlap)).flatten

/-- Word-level chunking of a text: split on spaces, chunk the word list,
and rejoin each chunk with single spaces. -/
def splitTextWords (maxSize overlap : Nat) (text : String) : List String :=
  (chunkDocument maxSize overlap (splitAtAll ' ' text.data)).map
    (fun c => String.intercalate " " (c.map String.mk))

theorem chunkAux_flatten_drop {α : Type} (overlap stride : Nat) (hs : 0 < stride)
    (fuel : Nat) :
    ∀ ws : List α, ws.length < fuel →
    ((chunkAux (overlap + stride) stride fuel ws).map (List.drop overlap)).flatten
      = ws.drop overlap := by
  induction fuel with
  | zero => exact fun ws hf => absurd hf (Nat.not_lt_zero _)
  | succ fuel ih =>
    intro ws hf
    simp only [chunkAux]
    by_cases hle : ws.length ≤ overlap + stride ∨ stride = 0
    · simp [hle]
    · rw [if_neg hle]
      push_neg at hle
      rw [List.map_cons, List.flatten_cons, ih (ws.drop stride) (by simp; omega)]
      rw [← List.take_drop, List.drop_drop]
      exact List.drop_take_append_drop' ws overlap stride

theorem chunkAux_reconstruct {α : Type} (overlap stride : Nat) (hs : 0 < stride)
    (fuel : Nat) :
    ∀ ws : List α, ws.length < fuel →
    reconstruct overlap (chunkAux (overlap + stride) stride fuel ws) = ws := by
  intro ws hf
  cases fuel with
  | zero => exact absurd hf (Nat.not_lt_zero _)
  | succ fuel =>
    simp only [chunkAux]
    by_cases hle : ws.length ≤ overlap + stride ∨ stride = 0
    · simp [hle, reconstruct]
    · rw [if_neg hle]
      push_neg at hle
      simp only [reconstruct]
      rw [chunkAux_flatten_drop overlap stride hs fuel (ws.drop stride) (by simp; omega)]
      rw [List.drop_drop, Nat.add_comm stride overlap]
      exact List.take_append_drop (overlap + stride) ws

theorem chunkAux_length_le {α : Type} (maxSize stride : Nat) (hs : 0 < stride)
    (fuel : Nat) :
    ∀ ws : List α, ws.length < fuel →
    ∀ c ∈ chunkAux maxSize stride fuel ws, c.length ≤ maxSize := by
  induction fuel with
  | zero => exact fun ws hf => absurd hf (Nat.not_lt_zero _)
  | succ fuel ih =>
    intro ws hf c hc
    simp only [chunkAux] at hc
    by_cases hle : ws.length ≤ maxSize ∨ stride = 0
    · rw [if_pos hle] at hc
      simp only [List.mem_singleton] at hc
      subst hc
      rcases hle with hle | hle
      · exact hle
      · omega
    · rw [if_neg hle] at hc
      push_neg at hle
      rcases List.mem_cons.mp hc with hc | hc
      · subst hc; simp [List.length_take]
      · exact ih (ws.drop stride) (by simp; omega) c hc

/-- C2: for every document, given as its list of word units, with
configured `overlap < max_chunk_size`: concatenating the produced chunks
with the overlap regions removed reconstructs the document exactly, and no
chunk exceeds `max_chunk_size` words. -/
theorem chunking_roundtrip_and_bounded (maxSize overlap : Nat) (h : overlap < maxSize)
    (ws : List String) :
    reconstruct overlap (chunkDocument maxSize overlap ws) = ws ∧
    ∀ c ∈ chunkDocument maxSize overlap ws, c.length ≤ maxSize := by
  have hs : 0 < maxSize - overlap := by omega
  have h1 := chunkAux_reconstruct overlap (maxSize - overlap) hs (ws.length + 1) ws
    (Nat.lt_succ_self _)
  have h2 := chunkAux_length_le maxSize (maxSize - overlap) hs (ws.length + 1) ws
    (Nat.lt_succ_self _)
  rw [show overlap + (maxSize - overlap) = maxSize by omega] at h1
  exact ⟨h1, h2⟩

/-- Witness for the C2 theorem at the spec's scenario input. -/
theorem chunking_roundtrip_and_bounded_witness :
    reconstruct 1 (chunkDocument 3 1 ["A", "B", "C", "D", "E", "F", "G", "H"])
      = ["A", "B", "C", "D", "E", "F", "G", "H"] ∧
    ∀ c ∈ chunkDocument 3 1 ["A", "B", "C", "D", "E", "F", "G", "H"], c.length ≤ 3 :=
  chunking_roundtrip_and_bounded 3 1 (by decide) ["A", "B", "C", "D", "E", "F", "G", "H"]

/-- C3: chunking the document `A B C D E F G H` with a maximum chunk size
of 3 words and an overlap of 1 word produces exactly the four chunks
`A B C`, `C D E`, `E F G`, `G H` in that order. -/
theorem chunking_scenario_eight_words :
    splitTextWords 3 1 "A B C D E F G H" = ["A B C", "C D E", "E F G", "G H"] := by
  decide

/-- Mean of a list of rational metric values (`np.mean`; `0` for the empty
list, where the quotient degenerates). -/
def mean (l : List ℚ) : ℚ := l.sum / l.length

/-- Modelled from the spec: the source's `PerformanceMonitor` (monitoring
notebook) records per-request latency, resource and quality metrics into
`metrics_history` but implements no drift statistic, and the README's
drift detection is delegated to external dashboards.  §4.6 specifies, per
tracked metric, a rolling baseline window and a rolling recent window, a
distributional-distance statistic between them, and a
`DriftDetected(metric_name)` flag raised when the statistic exceeds a
configured threshold; §9 leaves the concrete statistic as an implementer
choice.  The statistic modelled here is the absolute difference of the two
window means. -/
structure DriftMonitor where
  metricName : String
  baseline : List ℚ
  recent : List ℚ
  threshold : ℚ

/-- The distributional-distance statistic between the recent and baseline
windows of a tracked metric. -/
def DriftMonitor.statistic (m : DriftMonitor) : ℚ :=
  |mean m.recent - mean m.baseline|

/-- The advisory drift flag: `DriftDetected(metric_name)` when the
statistic exceeds the threshold, nothing otherwise. -/
def DriftMonitor.driftFlag (m : DriftMonitor) : Option String :=
  if m.threshold < m.statistic then some m.metricName else none

/-- An evaluation sample as consumed by `evaluate_rag_system`: question,
expected answer, and gold context.  A sample missing the `context` key is
modelled with `none`; Python subscripting such a sample raises `KeyError`. -/
structure QASample where
  question : String
  expected_answer : String
  context : Option String
deriving DecidableEq

/-- The external capabilities `evaluate_rag_system` combines: the QA chain
(answer and retrieved source documents per question), the wall-clock timer,
and the metric libraries (ROUGE, BERTScore, and the RAGAS retrieval and
generation scores). -/
structure EvalCaps where
  answerOf : String → String
  contextsOf : String → List String
  responseTime : String → ℚ
  rougeF1 : String → String → ℚ
  bertF1 : String → String → ℚ
  contextRelevancy : List String → String → ℚ
  faithfulnessScore : String → String → String → ℚ
  answerRelevancy : String → String → String → ℚ

/-- One row of the per-sample metric table built by `evaluate_rag_system`. -/
structure SampleMetrics where
  sample_id : Nat
  response_time : ℚ
  rouge1_f1 : ℚ
  bert_f1 : ℚ
  context_relevancy : ℚ
  faithfulness : ℚ
  answer_relevancy : ℚ
deriving DecidableEq

/-- Embedding of the per-sample body of `evaluate_rag_system`
(`Youtube RAG/04_MLFlow_evaluation.ipynb`): run the QA chain, compute
ROUGE/BERT scores against the expected answer, then unconditionally
subscript `sample['context']` for the retrieval and generation scores — a
missing key raises `KeyError`, modelled as `none`. -/
def evalSample (caps : EvalCaps) (i : Nat) (s : QASample) : Option SampleMetrics :=
  let prediction := caps.answerOf s.question
  let retrieved := caps.contextsOf s.question
  match s.context with
  | none => none
  | some ctx =>
    some { sample_id := i,
           response_time := caps.responseTime s.question,
           rouge1_f1 := caps.rougeF1 prediction s.expected_answer,
           bert_f1 := caps.bertF1 prediction s.expected_answer,
           context_relevancy := caps.contextRelevancy retrieved ctx,
           faithfulness := caps.faithfulnessScore prediction s.expected_answer ctx,
           answer_relevancy := caps.answerRelevancy prediction s.expected_answer ctx }

/-- Embedding of the loop of `evaluate_rag_system`: samples are evaluated
in order with their enumeration index; a raised `KeyError` aborts the whole
run (`none`), discarding all rows. -/
def evaluateRagSystemAux (caps : EvalCaps) : Nat → List QASample → Option (List SampleMetrics)
  | _, [] => some []
  | i, s :: rest =>
    match evalSample caps i s with
    | none => none
    | some m =>
      match evaluateRagSystemAux caps (i + 1) rest with
      | none => none
      | some ms => some (m :: ms)

/-- Embedding of `evaluate_rag_system`: the per-sample metric table, or
`none` when the run raises. -/
def evaluateRagSystem (caps : EvalCaps) (samples : List QASample) :
    Option (List SampleMetrics) :=
  evaluateRagSystemAux caps 0 samples

/-- A test example for the summarizer model-evaluation notebook. -/
structure TestExample where
  video_url : String
  reference_summary : String
deriving DecidableEq

/-- Embedding of the per-sample metric computation of
`evaluate_model_with_mlflow`: for each test example the model produces a
summary and the metric library scores it against the reference (both are
deterministic capabilities), giving one value of the chosen metric per
example, in input order. -/
def perSampleMetric (model : String → String) (metric : String → String → ℚ)
    (testData : List TestExample) : List ℚ :=
  testData.map fun e => metric (model e.video_url) e.reference_summary

/-- Embedding of the aggregation step of `evaluate_model_with_mlflow`: the
run-level value of a metric is `np.mean` of its per-sample values. -/
def avgMetric (model : String → String) (metric : String → String → ℚ)
    (testData : List TestExample) : ℚ :=
  mean (perSampleMetric model metric testData)

/-- C1 counterexample: with a generation capability that fails on every
attempt, `summarize_youtube_video` and `YouTubeSummaryChain.__call__` on a
valid URL with a non-empty transcript return the placeholder string
`"Could not generate summary"` — not a typed `GenerationFailed` value. -/
theorem summarize_genfail_placeholder_counterexample :
    summarizeYoutubeVideo (fun _ => some "hello world") (fun _ => none)
        "https://youtu.be/abc123" = Except.ok "Could not generate summary" ∧
    YouTubeSummaryChain.call {} (fun _ => some "hello world") (fun _ => none)
        "https://youtu.be/abc123" = Except.ok "Could not generate summary" := by
  constructor <;> decide

/-- C1 amended: when the generation capability fails (on its single
attempt — the code has no retry loop), both summarizer entry points return
the placeholder string `"Could not generate summary"` for any URL with a
valid non-empty video id and a non-empty fetched transcript. -/
theorem summarize_genfail_returns_placeholder
    (fetch gen : String → Option String) (url v t : String) (c : YouTubeSummaryChain)
    (hv : extractVideoIdSumm url = Except.ok (some v)) (hv0 : v ≠ "")
    (ht : fetch v = some t) (ht0 : t ≠ "")
    (hg : ∀ p, gen p = none) :
    summarizeYoutubeVideo fetch gen url = Except.ok "Could not generate summary" ∧
    c.call fetch gen url = Except.ok "Could not generate summary" := by
  constructor <;>
    simp [summarizeYoutubeVideo, YouTubeSummaryChain.call, summarizeText, hv, hv0, ht, ht0, hg]

/-- Witness for the amended C1 theorem at a concrete input. -/
theorem summarize_genfail_returns_placeholder_witness :
    summarizeYoutubeVideo (fun _ => some "some transcript") (fun _ => none)
        "https://youtu.be/xyz" = Except.ok "Could not generate summary" ∧
    YouTubeSummaryChain.call {} (fun _ => some "some transcript") (fun _ => none)
        "https://youtu.be/xyz" = Except.ok "Could not generate summary" :=
  summarize_genfail_returns_placeholder (fun _ => some "some transcript") (fun _ => none)
    "https://youtu.be/xyz" "xyz" "some transcript" {}
    (by decide) (by decide) rfl (by decide) (fun _ => rfl)

/-- C9: on well-formed URLs `process_videos` never surfaces a
transcript-fetch failure: it returns a record list with at most one entry
per URL, every returned record has a non-empty transcript that the fetch
actually produced, and URLs whose fetch failed or was empty are silently
omitted. -/
theorem process_videos_no_fetch_error
    (fetch : String → Option String) (urls : List String)
    (h : ∀ url ∈ urls, ∃ v, extractVideoIdRag url = Except.ok v) :
    ∃ docs, processVideos fetch urls = Except.ok docs ∧
      docs.length ≤ urls.length ∧
      ∀ d ∈ docs, d.content ≠ "" ∧ fetch d.video_id = some d.content := by
  induction urls with
  | nil => exact ⟨[], rfl, by simp, by simp⟩
  | cons url rest ih =>
    obtain ⟨v, hv⟩ := h url (by simp)
    obtain ⟨docs, hd, hlen, hcontent⟩ := ih (fun u hu => h u (by simp [hu]))
    by_cases ht : getTranscriptRag fetch v = ""
    · refine ⟨docs, ?_, Nat.le_succ_of_le hlen, hcontent⟩
      simp [processVideos, hv, hd, ht]
    · refine ⟨{ video_id := v, url := url, content := getTranscriptRag fetch v } :: docs,
        ?_, by simpa using hlen, ?_⟩
      · simp [processVideos, hv, hd, ht]
      · intro d hmem
        rcases List.mem_cons.mp hmem with hmem | hmem
        · subst hmem
          refine ⟨ht, ?_⟩
          unfold getTranscriptRag at ht ⊢
          cases hf : fetch v with
          | none => rw [hf] at ht; simp at ht
          | some s => simp [hf]
        · exact hcontent d hmem

/-- Witness for the C9 theorem at a concrete input. -/
theorem process_videos_no_fetch_error_witness :
    ∃ docs, processVideos (fun _ => some "a transcript") ["https://youtu.be/abc"]
        = Except.ok docs ∧
      docs.length ≤ ["https://youtu.be/abc"].length ∧
      ∀ d ∈ docs, d.content ≠ "" ∧ (fun _ : String => some "a transcript") d.video_id
        = some d.content :=
  process_videos_no_fetch_error (fun _ => some "a transcript") ["https://youtu.be/abc"]
    (by intro url hu
        simp at hu
        exact ⟨"abc", by rw [hu]; decide⟩)

/-- C5 counterexample: a document whose transcript is empty (here the fetch
fails, so `get_transcript` substitutes the empty string) is silently
dropped: `process_videos` succeeds with empty output and no `EmptyDocument`
error is raised anywhere. -/
theorem process_videos_empty_silent_counterexample :
    processVideos (fun _ => none) ["https://www.youtube.com/watch?v=abc"] = Except.ok [] := by
  decide

/-- C5 amended: when every fetched transcript is empty (the fetch raises or
yields the empty string), `process_videos` on well-formed URLs succeeds with
the empty record list: empty documents are silently substituted with empty
output, and no error of any kind is raised. -/
theorem process_videos_silently_drops_empty
    (fetch : String → Option String) (urls : List String)
    (hf : ∀ vid, fetch vid = none ∨ fetch vid = some "")
    (h : ∀ url ∈ urls, ∃ v, extractVideoIdRag url = Except.ok v) :
    processVideos fetch urls = Except.ok [] := by
  induction urls with
  | nil => rfl
  | cons url rest ih =>
    obtain ⟨v, hv⟩ := h url (by simp)
    have ht : getTranscriptRag fetch v = "" := by
      rcases hf v with hf1 | hf1 <;> simp [getTranscriptRag, hf1]
    simp [processVideos, hv, ih (fun u hu => h u (by simp [hu])), ht]

/-- Witness for the amended C5 theorem at a concrete input. -/
theorem process_videos_silently_drops_empty_witness :
    processVideos (fun _ => none) ["https://www.youtube.com/watch?v=xyz"] = Except.ok [] :=
  process_videos_silently_drops_empty (fun _ => none) ["https://www.youtube.com/watch?v=xyz"]
    (fun _ => Or.inl rfl)
    (by intro url hu
        simp at hu
        exact ⟨"xyz", by rw [hu]; decide⟩)

/-- C4: a Monitor whose baseline latency window has mean 100 raises the
`DriftDetected("latency")` flag for a recent window with mean 500 when the
statistic (distance 400) is beyond the configured threshold, and does not
raise it for a recent window with mean 105 (distance 5, within any
threshold of at least 5). -/
theorem monitor_drift_scenario (bs rs rs2 : List ℚ) (t : ℚ)
    (hb : mean bs = 100) (hr : mean rs = 500) (hr2 : mean rs2 = 105)
    (ht : t < 400) (ht2 : 5 ≤ t) :
    DriftMonitor.driftFlag ⟨"latency", bs, rs, t⟩ = some "latency" ∧
    DriftMonitor.driftFlag ⟨"latency", bs, rs2, t⟩ = none := by
  constructor
  · have h4 : |mean rs - mean bs| = (400 : ℚ) := by
      rw [hr, hb, abs_of_nonneg (by norm_num)]
      norm_num
    simp [DriftMonitor.driftFlag, DriftMonitor.statistic, h4, ht]
  · have h5 : |mean rs2 - mean bs| = (5 : ℚ) := by
      rw [hr2, hb, abs_of_nonneg (by norm_num)]
      norm_num
    simp only [DriftMonitor.driftFlag, DriftMonitor.statistic, h5]
    rw [if_neg (not_lt.mpr ht2)]

/-- Witness for the C4 theorem at concrete windows and threshold 50. -/
theorem monitor_drift_scenario_witness :
    DriftMonitor.driftFlag ⟨"latency", [100], [500], 50⟩ = some "latency" ∧
    DriftMonitor.driftFlag ⟨"latency", [100], [105], 50⟩ = none :=
  monitor_drift_scenario [100] [500] [105] 50
    (by norm_num [mean]) (by norm_num [mean]) (by norm_num [mean])
    (by norm_num) (by norm_num)

/-- A run whose samples all carry a gold context completes, independently
of the enumeration index. -/
theorem evaluateRagSystemAux_some_of_contexts (caps : EvalCaps) :
    ∀ (samples : List QASample) (i : Nat),
      (∀ s ∈ samples, s.context.isSome) →
      (evaluateRagSystemAux caps i samples).isSome := by
  intro samples
  induction samples with
  | nil => intro i _; simp [evaluateRagSystemAux]
  | cons s rest ih =>
    intro i hall
    have hc : s.context.isSome := hall s (by simp)
    obtain ⟨ctx, hctx⟩ := Option.isSome_iff_exists.mp hc
    have hrest := ih (i + 1) (fun s2 hs2 => hall s2 (by simp [hs2]))
    obtain ⟨ms, hms⟩ := Option.isSome_iff_exists.mp hrest
    simp [evaluateRagSystemAux, evalSample, hctx, hms]

/-- A single sample with no gold context makes the whole run fail,
independently of the enumeration index. -/
theorem evaluateRagSystemAux_none_of_missing (caps : EvalCaps) :
    ∀ (samples : List QASample) (i : Nat) (s0 : QASample),
      s0 ∈ samples → s0.context = none →
      evaluateRagSystemAux caps i samples = none := by
  intro samples
  induction samples with
  | nil => intro i s0 h0; simp at h0
  | cons s rest ih =>
    intro i s0 h0 hc0
    rcases List.mem_cons.mp h0 with h0 | h0
    · subst h0
      simp [evaluateRagSystemAux, evalSample, hc0]
    · have hrest := ih (i + 1) s0 h0 hc0
      cases hs : evalSample caps i s with
      | none => simp [evaluateRagSystemAux, hs]
      | some m => simp [evaluateRagSystemAux, hs, hrest]

/-- C6 counterexample: a run containing a sample with no gold context does
not skip the context-relevancy/faithfulness metrics for that sample — the
unguarded `sample['context']` lookup raises and the whole run fails,
producing no metric table at all. -/
theorem eval_missing_context_counterexample :
    evaluateRagSystem
      { answerOf := fun _ => "The video discusses several topics",
        contextsOf := fun _ => [],
        responseTime := fun _ => 1,
        rougeF1 := fun _ _ => 0,
        bertF1 := fun _ _ => 0,
        contextRelevancy := fun _ _ => 0,
        faithfulnessScore := fun _ _ _ => 0,
        answerRelevancy := fun _ _ _ => 0 }
      [{ question := "What are the main topics discussed in the video?",
         expected_answer := "The video discusses...",
         context := none }] = none := rfl

/-- C6 amended: `evaluate_rag_system` completes exactly when every sample
carries a gold context; a sample with no `gold_context` makes the run fail
with `KeyError` instead of skipping that sample's context-relevancy and
faithfulness metrics. -/
theorem eval_run_completes_iff_all_contexts (caps : EvalCaps) (samples : List QASample) :
    (evaluateRagSystem caps samples).isSome ↔ ∀ s ∈ samples, s.context.isSome := by
  constructor
  · intro hsome
    by_contra hnot
    push_neg at hnot
    obtain ⟨s0, hs0, hc0⟩ := hnot
    have hnone : s0.context = none := by
      cases hcc : s0.context with
      | none => rfl
      | some c => rw [hcc] at hc0; simp at hc0
    rw [evaluateRagSystem,
      evaluateRagSystemAux_none_of_missing caps samples 0 s0 hs0 hnone] at hsome
    simp at hsome
  · exact fun h => evaluateRagSystemAux_some_of_contexts caps samples 0 h

/-- Witness instantiating the amended C6 theorem on a concrete sample list. -/
theorem eval_run_completes_iff_all_contexts_witness :
    (evaluateRagSystem
      { answerOf := fun _ => "a", contextsOf := fun _ => [], responseTime := fun _ => 0,
        rougeF1 := fun _ _ => 0, bertF1 := fun _ _ => 0, contextRelevancy := fun _ _ => 0,
        faithfulnessScore := fun _ _ _ => 0, answerRelevancy := fun _ _ _ => 0 }
      [{ question := "q", expected_answer := "e", context := some "ctx" }]).isSome ↔
    ∀ s ∈ [({ question := "q", expected_answer := "e", context := some "ctx" } : QASample)],
      s.context.isSome :=
  eval_run_completes_iff_all_contexts _ _

/-- C7: for a non-empty test set, each run-level aggregate equals the
arithmetic mean (sum divided by count) of the per-sample values of that
metric, and the aggregate is unchanged under any permutation of the sample
order. -/
theorem aggregate_is_mean_and_order_independent
    (model : String → String) (metric : String → String → ℚ)
    (l l2 : List TestExample) (_hne : l ≠ []) (hp : l.Perm l2) :
    avgMetric model metric l
      = (perSampleMetric model metric l).sum / (perSampleMetric model metric l).length ∧
    avgMetric model metric l = avgMetric model metric l2 := by
  refine ⟨rfl, ?_⟩
  have hm := hp.map fun e => metric (model e.video_url) e.reference_summary
  unfold avgMetric mean perSampleMetric
  rw [hm.sum_eq, hm.length_eq]

/-- Witness for the C7 theorem on a two-example test set and its swap. -/
theorem aggregate_is_mean_and_order_independent_witness :
    (avgMetric (fun _ => "summary") (fun _ _ => 1)
        [{ video_url := "https://www.youtube.com/watch?v=example1",
           reference_summary := "Reference summary for video 1" },
         { video_url := "https://www.youtube.com/watch?v=example2",
           reference_summary := "Reference summary for video 2" }]
      = (perSampleMetric (fun _ => "summary") (fun _ _ => 1)
          [{ video_url := "https://www.youtube.com/watch?v=example1",
             reference_summary := "Reference summary for video 1" },
           { video_url := "https://www.youtube.com/watch?v=example2",
             reference_summary := "Reference summary for video 2" }]).sum /
        (perSampleMetric (fun _ => "summary") (fun _ _ => 1)
          [{ video_url := "https://www.youtube.com/watch?v=example1",
             reference_summary := "Reference summary for video 1" },
           { video_url := "https://www.youtube.com/watch?v=example2",
             reference_summary := "Reference summary for video 2" }]).length) ∧
    avgMetric (fun _ => "summary") (fun _ _ => 1)
        [{ video_url := "https://www.youtube.com/watch?v=example1",
           reference_summary := "Reference summary for video 1" },
         { video_url := "https://www.youtube.com/watch?v=example2",
           reference_summary := "Reference summary for video 2" }]
      = avgMetric (fun _ => "summary") (fun _ _ => 1)
        [{ video_url := "https://www.youtube.com/watch?v=example2",
           reference_summary := "Reference summary for video 2" },
         { video_url := "https://www.youtube.com/watch?v=example1",
           reference_summary := "Reference summary for video 1" }] :=
  aggregate_is_mean_and_order_independent (fun _ => "summary") (fun _ _ => 1)
    _ _ (List.cons_ne_nil _ _)
    (List.Perm.swap
      ({ video_url := "https://www.youtube.com/watch?v=example2",
         reference_summary := "Reference summary for video 2" } : TestExample)
      ({ video_url := "https://www.youtube.com/watch?v=example1",
         reference_summary := "Reference summary for video 1" } : TestExample) [])

end YtRag
